import Mathlib

/-!
Verification of the collaborative whiteboard front end: the geometry
kernel (shapeUtils), the scene model and synchronization layer
(handleWebSocketMessage and the scene mutation code in App.tsx), the
eraser engine, the resize logic and the text-editing key handler.

Numbers: JS double-precision values are embedded as exact rationals;
the analysis ignores floating-point rounding, which none of the
properties below depend on.  Comparisons of the form
Math.sqrt d <= r (with d a sum of squares, hence nonnegative) are
embedded as the equivalent squared comparison 0 <= r and d <= r * r
(see sqrtLe).  Canvas text measurement (ctx.measureText) is an
environment input and is passed in as an explicit parameter
measureText.
-/

namespace Whiteboard

/-- The tag of the Shape tagged variant.  The types.ts union lists
rectangle, circle, line, triangle, text; shapeUtils.ts additionally
handles an image case, so it is included here (it falls into the
default arms of the App.tsx functions). -/
inductive ShapeType where
  | rectangle
  | circle
  | line
  | triangle
  | text
  | image
  deriving Repr, DecidableEq

/-- The Shape record of types.ts: common fields plus optional
variant-specific fields.  Optional TS fields are Option values;
a JS truthiness test on a numeric field holds iff the field is
present and nonzero. -/
structure Shape where
  id : String
  type : ShapeType
  x : ℚ
  y : ℚ
  width : Option ℚ := none
  height : Option ℚ := none
  radius : Option ℚ := none
  endX : Option ℚ := none
  endY : Option ℚ := none
  color : String
  size : ℚ
  fillColor : Option String := none
  username : String
  text : Option String := none
  fontSize : Option ℚ := none
  deriving Repr, DecidableEq

/-- JS truthiness of an optional number: present and nonzero. -/
def truthyQ : Option ℚ → Bool
  | some v => decide (v ≠ 0)
  | none => false

/-- JS truthiness of an optional string: present and nonempty. -/
def truthyS : Option String → Bool
  | some s => decide (s ≠ "")
  | none => false

/-- The JS expression a or-else d on an optional number
(pattern shape.fontSize or 16): the value if truthy, else d. -/
def orDefaultQ (o : Option ℚ) (d : ℚ) : ℚ :=
  match o with
  | some v => if v ≠ 0 then v else d
  | none => d

/-- Embeds the JS comparison Math.sqrt dSq <= r for dSq >= 0:
equivalent to r being nonnegative with dSq <= r * r. -/
def sqrtLe (dSq r : ℚ) : Bool :=
  decide (0 ≤ r ∧ dSq ≤ r * r)

/-- distanceToLine of shapeUtils.ts, returning the SQUARE of the
distance from (px, py) to the segment (x1, y1)-(x2, y2).  The source
returns Math.sqrt of this value; callers only compare it against a
tolerance, which sqrtLe translates.  The lenSq <> 0 guard of the
source is kept: a zero-length segment leaves param = -1 and the
function returns the distance to the coincident endpoint. -/
def distanceToLineSq (px py x1 y1 x2 y2 : ℚ) : ℚ :=
  let A := px - x1
  let B := py - y1
  let C := x2 - x1
  let D := y2 - y1
  let dot := A * C + B * D
  let lenSq := C * C + D * D
  let param : ℚ := if lenSq ≠ 0 then dot / lenSq else -1
  let xx := if param < 0 then x1 else if param > 1 then x2 else x1 + param * C
  let yy := if param < 0 then y1 else if param > 1 then y2 else y1 + param * D
  (px - xx) * (px - xx) + (py - yy) * (py - yy)

/-- The signed-area expression computed in isPointInTriangle and in
the triangle arm of isShapeTouchedByEraser, for the triangle with
vertices (x1, y1), (x2, y2), (x3, y3). -/
def triArea (x1 y1 x2 y2 x3 y3 : ℚ) : ℚ :=
  (1 / 2) * (-y2 * x3 + y1 * (-x2 + x3) + x1 * (y2 - y3) + x2 * y3)

/-- isPointInTriangle of shapeUtils.ts (barycentric test).  Rational
division totalizes division by zero to 0, unlike JS; every call site
guards with truthy width and height, under which the area is
-(width * height) / 2 and nonzero (theorem C6 below), so the
division-by-zero case is never exercised. -/
def isPointInTriangle (px py x1 y1 x2 y2 x3 y3 : ℚ) : Bool :=
  let area := triArea x1 y1 x2 y2 x3 y3
  let s := (1 / (2 * area)) * (y1 * x3 - x1 * y3 + (y3 - y1) * px + (x1 - x3) * py)
  let t := (1 / (2 * area)) * (x1 * y2 - y1 * x2 + (y1 - y2) * px + (x2 - x1) * py)
  decide (s ≥ 0 ∧ t ≥ 0 ∧ 1 - s - t ≥ 0)

/-- isPointInShape of shapeUtils.ts.  measureText stands for the
canvas ctx.measureText(text).width environment call (the 2d context
is assumed available, as in a browser). -/
def isPointInShape (measureText : String → ℚ) (x y : ℚ) (shape : Shape) : Bool :=
  match shape.type with
  | .rectangle =>
    match shape.width, shape.height with
    | some w, some h =>
      if w ≠ 0 ∧ h ≠ 0 then
        decide (x ≥ shape.x ∧ x ≤ shape.x + w ∧ y ≥ shape.y ∧ y ≤ shape.y + h)
      else false
    | _, _ => false
  | .circle =>
    match shape.radius with
    | some r =>
      if r ≠ 0 then
        let dx := x - shape.x
        let dy := y - shape.y
        sqrtLe (dx * dx + dy * dy) r
      else false
    | none => false
  | .line =>
    match shape.endX, shape.endY with
    | some ex, some ey =>
      sqrtLe (distanceToLineSq x y shape.x shape.y ex ey) 5
    | _, _ => false
  | .triangle =>
    match shape.width, shape.height with
    | some w, some h =>
      if w ≠ 0 ∧ h ≠ 0 then
        let x1 := shape.x + w / 2
        let y1 := shape.y
        let x2 := shape.x
        let y2 := shape.y + h
        let x3 := shape.x + w
        let y3 := shape.y + h
        isPointInTriangle x y x1 y1 x2 y2 x3 y3
      else false
    | _, _ => false
  | .text =>
    match shape.width, shape.height with
    | some w, some h =>
      decide (x ≥ shape.x ∧ x ≤ shape.x + w ∧ y ≥ shape.y ∧ y ≤ shape.y + h)
    | _, _ =>
      match shape.text with
      | some t =>
        if t ≠ "" then
          let fontSize := orDefaultQ shape.fontSize 16
          let textWidth := measureText t
          let textHeight := fontSize
          decide (x ≥ shape.x - 5 ∧ x ≤ shape.x + textWidth + 100 ∧
                  y ≥ shape.y - 5 ∧ y ≤ shape.y + textHeight + 5)
        else false
      | none => false
  | .image =>
    match shape.width, shape.height with
    | some w, some h =>
      if w ≠ 0 ∧ h ≠ 0 then
        decide (x ≥ shape.x ∧ x ≤ shape.x + w ∧ y ≥ shape.y ∧ y ≤ shape.y + h)
      else false
    | _, _ => false

/-- getResizeHandle of shapeUtils.ts: the first handle of the
variant whose 8x8 box (tolerance 4 on each axis) contains the
cursor, or none.  Triangle has no arm in the source and yields
none. -/
def getResizeHandle (shape : Shape) (x y : ℚ) : Option String :=
  let tolerance : ℚ := 8 / 2
  let hit : ℚ → ℚ → Bool := fun hx hy =>
    decide (|x - hx| ≤ tolerance ∧ |y - hy| ≤ tolerance)
  if (shape.type = .rectangle ∨ shape.type = .image ∨ shape.type = .text) then
    match shape.width, shape.height with
    | some w, some h =>
      if w ≠ 0 ∧ h ≠ 0 then
        let handles : List (String × ℚ × ℚ) :=
          [("tl", shape.x, shape.y),
           ("tr", shape.x + w, shape.y),
           ("bl", shape.x, shape.y + h),
           ("br", shape.x + w, shape.y + h),
           ("t", shape.x + w / 2, shape.y),
           ("b", shape.x + w / 2, shape.y + h),
           ("l", shape.x, shape.y + h / 2),
           ("r", shape.x + w, shape.y + h / 2)]
        (handles.find? fun hdl => hit hdl.2.1 hdl.2.2).map (·.1)
      else none
    | _, _ => none
  else if shape.type = .circle then
    match shape.radius with
    | some r =>
      if r ≠ 0 then
        let handles : List (String × ℚ × ℚ) :=
          [("t", shape.x, shape.y - r),
           ("r", shape.x + r, shape.y),
           ("b", shape.x, shape.y + r),
           ("l", shape.x - r, shape.y)]
        (handles.find? fun hdl => hit hdl.2.1 hdl.2.2).map (·.1)
      else none
    | none => none
  else if shape.type = .line then
    match shape.endX, shape.endY with
    | some ex, some ey =>
      if hit shape.x shape.y then some "start"
      else if hit ex ey then some "end"
      else none
    | _, _ => none
  else none

/-- distanceToLineSegment of App.tsx, returning the SQUARE of the
distance from (px, py) to the segment; the lengthSquared = 0 guard
of the source returns the distance to the coincident endpoint. -/
def distanceToLineSegmentSq (px py x1 y1 x2 y2 : ℚ) : ℚ :=
  let dx := x2 - x1
  let dy := y2 - y1
  let lengthSquared := dx * dx + dy * dy
  if lengthSquared = 0 then
    (px - x1) * (px - x1) + (py - y1) * (py - y1)
  else
    let t := max 0 (min 1 (((px - x1) * dx + (py - y1) * dy) / lengthSquared))
    let projX := x1 + t * dx
    let projY := y1 + t * dy
    (px - projX) * (px - projX) + (py - projY) * (py - projY)

/-- isShapeTouchedByEraser of App.tsx: whether the eraser disc of
the given radius centered at (eraserX, eraserY) touches the shape.
Square roots are embedded through sqrtLe; the text arm compares
squared quantities directly, as the source does. -/
def isShapeTouchedByEraser (measureText : String → ℚ)
    (eraserX eraserY eraserRadius : ℚ) (shape : Shape) : Bool :=
  match shape.type with
  | .text =>
    match shape.text with
    | some t =>
      if t ≠ "" then
        let fontSize := orDefaultQ shape.fontSize 16
        let textWidth := measureText t
        let textHeight := fontSize
        let rectLeft := shape.x
        let rectRight := shape.x + textWidth
        let rectTop := shape.y
        let rectBottom := shape.y + textHeight
        let closestX := max rectLeft (min eraserX rectRight)
        let closestY := max rectTop (min eraserY rectBottom)
        let dx := eraserX - closestX
        let dy := eraserY - closestY
        decide (dx * dx + dy * dy ≤ eraserRadius * eraserRadius)
      else false
    | none => false
  | .rectangle =>
    match shape.width, shape.height with
    | some w, some h =>
      if w ≠ 0 ∧ h ≠ 0 then
        let rectLeft := min shape.x (shape.x + w)
        let rectRight := max shape.x (shape.x + w)
        let rectTop := min shape.y (shape.y + h)
        let rectBottom := max shape.y (shape.y + h)
        let closestX := max rectLeft (min eraserX rectRight)
        let closestY := max rectTop (min eraserY rectBottom)
        let dx := eraserX - closestX
        let dy := eraserY - closestY
        decide (dx * dx + dy * dy ≤ eraserRadius * eraserRadius)
      else false
    | _, _ => false
  | .circle =>
    match shape.radius with
    | some r =>
      if r ≠ 0 then
        let dx := eraserX - shape.x
        let dy := eraserY - shape.y
        sqrtLe (dx * dx + dy * dy) (eraserRadius + r)
      else false
    | none => false
  | .line =>
    match shape.endX, shape.endY with
    | some ex, some ey =>
      let dx := ex - shape.x
      let dy := ey - shape.y
      let lengthSquared := dx * dx + dy * dy
      if lengthSquared = 0 then
        let pdx := eraserX - shape.x
        let pdy := eraserY - shape.y
        sqrtLe (pdx * pdx + pdy * pdy) eraserRadius
      else
        let t := max 0 (min 1 (((eraserX - shape.x) * dx + (eraserY - shape.y) * dy) / lengthSquared))
        let projX := shape.x + t * dx
        let projY := shape.y + t * dy
        let pdx := eraserX - projX
        let pdy := eraserY - projY
        sqrtLe (pdx * pdx + pdy * pdy) eraserRadius
    | _, _ => false
  | .triangle =>
    match shape.width, shape.height with
    | some w, some h =>
      if w ≠ 0 ∧ h ≠ 0 then
        let x1 := shape.x + w / 2
        let y1 := shape.y
        let x2 := shape.x
        let y2 := shape.y + h
        let x3 := shape.x + w
        let y3 := shape.y + h
        let area := triArea x1 y1 x2 y2 x3 y3
        let s := (1 / (2 * area)) * (y1 * x3 - x1 * y3 + (y3 - y1) * eraserX + (x1 - x3) * eraserY)
        let t := (1 / (2 * area)) * (x1 * y2 - y1 * x2 + (y1 - y2) * eraserX + (x2 - x1) * eraserY)
        if s ≥ 0 ∧ t ≥ 0 ∧ 1 - s - t ≥ 0 then
          true
        else
          let distToEdge1Sq := distanceToLineSegmentSq eraserX eraserY x1 y1 x2 y2
          let distToEdge2Sq := distanceToLineSegmentSq eraserX eraserY x2 y2 x3 y3
          let distToEdge3Sq := distanceToLineSegmentSq eraserX eraserY x3 y3 x1 y1
          sqrtLe (min (min distToEdge1Sq distToEdge2Sq) distToEdge3Sq) eraserRadius
      else false
    | _, _ => false
  | .image => false

/-- A freehand point (DrawPoint of types.ts); the color field holds
the sentinel string eraser for eraser strokes. -/
structure DrawPoint where
  x : ℚ
  y : ℚ
  color : String
  size : ℚ
  deriving Repr, DecidableEq

/-- The UserCursor record of App.tsx (presence entry): exactly the
four fields the source stores. -/
structure UserCursor where
  x : ℚ
  y : ℚ
  username : String
  isDrawing : Bool
  deriving Repr, DecidableEq

/-- A partial shape (TS type Partial Shape) carried by updateShape
messages: every field optional; a field absent from the update
leaves the target field unchanged under the spread merge. -/
structure ShapeUpdate where
  id : Option String := none
  type : Option ShapeType := none
  x : Option ℚ := none
  y : Option ℚ := none
  width : Option ℚ := none
  height : Option ℚ := none
  radius : Option ℚ := none
  endX : Option ℚ := none
  endY : Option ℚ := none
  color : Option String := none
  size : Option ℚ := none
  fillColor : Option String := none
  username : Option String := none
  text : Option String := none
  fontSize : Option ℚ := none
  deriving Repr, DecidableEq

/-- Merge of an optional field: an update value present in the
message overwrites; an absent one keeps the current value. -/
def mergeOpt {α : Type} (upd cur : Option α) : Option α :=
  match upd with
  | some v => some v
  | none => cur

/-- The spread merge of App.tsx applied by the updateShape handler:
fields present in updates overwrite those of shape. -/
def mergeShape (shape : Shape) (updates : ShapeUpdate) : Shape where
  id := updates.id.getD shape.id
  type := updates.type.getD shape.type
  x := updates.x.getD shape.x
  y := updates.y.getD shape.y
  width := mergeOpt updates.width shape.width
  height := mergeOpt updates.height shape.height
  radius := mergeOpt updates.radius shape.radius
  endX := mergeOpt updates.endX shape.endX
  endY := mergeOpt updates.endY shape.endY
  color := updates.color.getD shape.color
  size := updates.size.getD shape.size
  fillColor := mergeOpt updates.fillColor shape.fillColor
  username := updates.username.getD shape.username
  text := mergeOpt updates.text shape.text
  fontSize := mergeOpt updates.fontSize shape.fontSize

/-- The updateShape scene mutation of the App.tsx message handler:
setShapes(prev.map(shape => shape.id === shapeId ? merge : shape)). -/
def updateShapes (shapes : List Shape) (shapeId : String) (updates : ShapeUpdate) : List Shape :=
  shapes.map fun shape => if shape.id = shapeId then mergeShape shape updates else shape

/-- The deleteShape scene mutation of the App.tsx message handler:
setShapes(prev.filter(shape => shape.id !== shapeId)). -/
def deleteShapes (shapes : List Shape) (shapeId : String) : List Shape :=
  shapes.filter fun shape => shape.id ≠ shapeId

/-- The subset of the WebSocketMessage fields of App.tsx that the
scene and presence handling reads; type discriminates, all other
fields are optional exactly as in the source interface. -/
structure WSMessage where
  type : String
  username : Option String := none
  roomId : Option String := none
  roomName : Option String := none
  points : Option (List DrawPoint) := none
  x : Option ℚ := none
  y : Option ℚ := none
  isDrawing : Option Bool := none
  shape : Option Shape := none
  shapeId : Option String := none
  updates : Option ShapeUpdate := none
  deriving Repr, DecidableEq

/-- JS Map.set on the cursor map, modeled on an association list
that preserves insertion order: overwrite in place if the key is
present, append otherwise. -/
def mapSet (m : List (String × UserCursor)) (k : String) (v : UserCursor) :
    List (String × UserCursor) :=
  match m with
  | [] => [(k, v)]
  | (k1, v1) :: rest => if k1 = k then (k, v) :: rest else (k1, v1) :: mapSet rest k v

/-- The client state touched by the scene and presence handling of
App.tsx: shapes, committed strokes and eraser strokes, the cursor
map keyed by username, and the current selection. -/
structure ClientState where
  shapes : List Shape := []
  strokes : List (List DrawPoint) := []
  eraserStrokes : List (List DrawPoint) := []
  userCursors : List (String × UserCursor) := []
  selectedShapeId : Option String := none
  deriving Repr, DecidableEq

/-- The scene and presence arms of handleWebSocketMessage in App.tsx
(draw, addShape, updateShape, deleteShape, cursor, clear, plus the
clearCanvas side effect of roomCreated and roomJoined); username is
the local username.  Message types with no scene effect leave the
state unchanged. -/
def handleWebSocketMessage (username : String) (st : ClientState) (message : WSMessage) :
    ClientState :=
  if message.type = "roomCreated" ∨ message.type = "roomJoined" then
    match message.roomId, message.roomName with
    | some _, some _ => { st with strokes := [], eraserStrokes := [] }
    | _, _ => st
  else if message.type = "draw" then
    match message.points with
    | some points =>
      if message.username ≠ some username then
        let isEraserStroke : Bool := match points with
          | p :: _ => p.color == "eraser"
          | [] => false
        if isEraserStroke then { st with eraserStrokes := st.eraserStrokes ++ [points] }
        else { st with strokes := st.strokes ++ [points] }
      else st
    | none => st
  else if message.type = "addShape" then
    match message.shape with
    | some shape => { st with shapes := st.shapes ++ [shape] }
    | none => st
  else if message.type = "updateShape" then
    match message.shapeId, message.updates with
    | some shapeId, some updates =>
      if shapeId ≠ "" then { st with shapes := updateShapes st.shapes shapeId updates }
      else st
    | _, _ => st
  else if message.type = "deleteShape" then
    match message.shapeId with
    | some shapeId =>
      if shapeId ≠ "" then { st with shapes := deleteShapes st.shapes shapeId }
      else st
    | none => st
  else if message.type = "cursor" then
    match message.username, message.x, message.y with
    | some sender, some mx, some my =>
      if sender ≠ "" ∧ sender ≠ username then
        let entry : UserCursor :=
          { x := mx, y := my, username := sender, isDrawing := message.isDrawing.getD false }
        { st with userCursors := mapSet st.userCursors sender entry }
      else st
    | _, _, _ => st
  else if message.type = "clear" then
    { st with shapes := [], strokes := [], eraserStrokes := [], selectedShapeId := none }
  else st

/-- JS String.prototype.includes restricted to one-character needles
(the only use in the source: resizeHandle.includes of t, b, l, r):
membership of the character in the string. -/
def strContains (s : String) (c : Char) : Bool :=
  s.data.contains c

/-- JS String.prototype.trim on the text buffer: strips leading and
trailing whitespace characters. -/
def jsTrim (s : String) : String :=
  ⟨((s.data.dropWhile Char.isWhitespace).reverse.dropWhile Char.isWhitespace).reverse⟩

/-- getEraserSize of App.tsx: sizes[eraserSize - 1] with fallback 20
(the JS or-20 fires when the index is out of range). -/
def getEraserSize (eraserSize : Nat) : ℚ :=
  ([10, 20, 40, 80] : List ℚ).getD (eraserSize - 1) 20

/-- The sampled-point test of the eraser branch of draw in App.tsx:
steps = 5, indices i = 0..5, t = i / steps, sample point linearly
interpolated from the previous to the current cursor position, and
the shape is touched as soon as one sample touches it (the source
breaks out of the loop on the first hit). -/
def eraserPathTouchesShape (measureText : String → ℚ)
    (lastX lastY x y eraserRadius : ℚ) (shape : Shape) : Bool :=
  let steps : ℚ := 5
  (List.range 6).any fun i =>
    let t : ℚ := (i : ℚ) / steps
    let checkX := lastX + (x - lastX) * t
    let checkY := lastY + (y - lastY) * t
    isShapeTouchedByEraser measureText checkX checkY eraserRadius shape

/-- One eraser pointer-move step of draw in App.tsx restricted to
the shape deletion it performs: collect the ids of the shapes some
sample point touches and filter them out of the scene. -/
def eraseStep (measureText : String → ℚ)
    (lastX lastY x y eraserRadius : ℚ) (shapes : List Shape) : List Shape :=
  let shapesToDelete :=
    (shapes.filter (eraserPathTouchesShape measureText lastX lastY x y eraserRadius)).map (·.id)
  shapes.filter fun shape => ¬ shapesToDelete.contains shape.id

/-- The resize branch of handleMouseMove in App.tsx, applied to the
selected shape with the recorded resizeHandle and the cursor at
(x, y).  The source builds updatedShape by a chain of conditionals
that all read the ORIGINAL shape fields; sqrtFn stands for the
Math.sqrt call whose value feeds the circle radius. -/
def resizeShape (sqrtFn : ℚ → ℚ) (shape : Shape) (resizeHandle : String) (x y : ℚ) : Shape :=
  if shape.type = .rectangle then
    match shape.width, shape.height with
    | some w, some h =>
      if w ≠ 0 ∧ h ≠ 0 then
        let s1 :=
          if strContains resizeHandle 't' then
            let newHeight := (shape.y + h) - y
            if newHeight > 5 then { shape with y := y, height := some newHeight } else shape
          else shape
        let s2 :=
          if strContains resizeHandle 'b' then { s1 with height := some (max 5 (y - shape.y)) }
          else s1
        let s3 :=
          if strContains resizeHandle 'l' then
            let newWidth := (shape.x + w) - x
            if newWidth > 5 then { s2 with x := x, width := some newWidth } else s2
          else s2
        if strContains resizeHandle 'r' then { s3 with width := some (max 5 (x - shape.x)) }
        else s3
      else shape
    | _, _ => shape
  else if shape.type = .circle then
    match shape.radius with
    | some r =>
      if r ≠ 0 then
        let dx := x - shape.x
        let dy := y - shape.y
        { shape with radius := some (max 5 (sqrtFn (dx * dx + dy * dy))) }
      else shape
    | none => shape
  else if shape.type = .line then
    match shape.endX, shape.endY with
    | some _, some _ =>
      if resizeHandle = "start" then { shape with x := x, y := y }
      else if resizeHandle = "end" then { shape with endX := some x, endY := some y }
      else shape
    | _, _ => shape
  else if shape.type = .triangle then
    match shape.width, shape.height with
    | some w, some h =>
      if w ≠ 0 ∧ h ≠ 0 then
        let dx := x - (shape.x + w / 2)
        let dy := y - (shape.y + h / 2)
        { shape with width := some (max 10 (|dx| * 2)), height := some (max 10 (|dy| * 2)) }
      else shape
    | _, _ => shape
  else shape

/-- Shape finalization of stopDrawing in App.tsx: the committed
shape records the SIGNED cursor delta as width and height for
rectangle and triangle, the Euclidean length of the delta as radius
for circle (sqrtFn = Math.sqrt), and the raw cursor position as end
point for line. -/
def finalizeShape (sqrtFn : ℚ → ℚ) (shapeId : String) (mode : ShapeType)
    (startX startY currentX currentY : ℚ) (color : String) (size : ℚ)
    (username : String) : Shape :=
  let base : Shape :=
    { id := shapeId, type := mode, x := startX, y := startY,
      color := color, size := size, username := username }
  if mode = .rectangle ∨ mode = .triangle then
    { base with width := some (currentX - startX), height := some (currentY - startY) }
  else if mode = .circle then
    let width := currentX - startX
    let height := currentY - startY
    { base with radius := some (sqrtFn (width * width + height * height)) }
  else if mode = .line then
    { base with endX := some currentX, endY := some currentY }
  else base

/-- The state read and written by the text-editing branch of the
keydown handler in App.tsx: the scene shapes, the id of the text
shape being edited, the text buffer, and the ordered list of
messages sent so far (the outbox). -/
structure EditState where
  shapes : List Shape := []
  editingTextId : Option String := none
  editingText : String := ""
  sent : List WSMessage := []
  deriving Repr, DecidableEq

/-- The updateShape wire message sent by updateTextShape for the
given shape id and text buffer. -/
def textUpdateMsg (shapeId : String) (newText : String) : WSMessage :=
  { type := "updateShape", shapeId := some shapeId,
    updates := some { text := some newText } }

/-- The deleteShape wire message sent when an empty text shape is
discarded. -/
def textDeleteMsg (shapeId : String) : WSMessage :=
  { type := "deleteShape", shapeId := some shapeId }

/-- updateTextShape of App.tsx: sets the edited shape text locally
and sends an updateShape message carrying the buffer as is (a room
is assumed joined, as it must be for the whiteboard view). -/
def updateTextShape (st : EditState) (newText : String) : EditState :=
  match st.editingTextId with
  | none => st
  | some editingTextId =>
    { st with
      shapes := st.shapes.map fun s =>
        if s.id = editingTextId then { s with text := some newText } else s,
      sent := st.sent ++ [textUpdateMsg editingTextId newText] }

/-- A key event of the text-editing branch: a printable character
(e.key of length 1 or the space key), Enter, Backspace or Escape. -/
inductive EditKey where
  | char (c : Char)
  | enter
  | backspace
  | escape
  deriving Repr, DecidableEq

/-- The text-editing branch of handleKeyDown in App.tsx.  It only
runs while editingTextId is set.  Enter commits the TRIMMED buffer
locally without sending anything (or deletes the shape and sends
deleteShape when the trimmed buffer is empty); Escape deletes the
shape and sends deleteShape only when its text is still empty;
Backspace and printable characters update the buffer and broadcast
the UNTRIMMED buffer through updateTextShape. -/
def handleEditKey (st : EditState) (k : EditKey) : EditState :=
  match st.editingTextId with
  | none => st
  | some editingTextId =>
    match k with
    | .escape =>
      let st1 :=
        match st.shapes.find? (fun s => s.id = editingTextId) with
        | some shape =>
          if ¬ truthyS shape.text then
            { st with shapes := st.shapes.filter (fun s => s.id ≠ editingTextId),
                      sent := st.sent ++ [textDeleteMsg editingTextId] }
          else st
        | none => st
      { st1 with editingTextId := none, editingText := "" }
    | .enter =>
      let st1 :=
        if jsTrim st.editingText ≠ "" then
          match st.shapes.find? (fun s => s.id = editingTextId) with
          | some _ =>
            { st with shapes := st.shapes.map fun s =>
                if s.id = editingTextId then { s with text := some (jsTrim st.editingText) } else s }
          | none => st
        else
          { st with shapes := st.shapes.filter (fun s => s.id ≠ editingTextId),
                    sent := st.sent ++ [textDeleteMsg editingTextId] }
      { st1 with editingTextId := none, editingText := "" }
    | .backspace =>
      let newText := st.editingText.dropRight 1
      updateTextShape { st with editingText := newText } newText
    | .char c =>
      let newText := st.editingText.push c
      updateTextShape { st with editingText := newText } newText

/-- Sequential composition of two partial updates, second one
winning: the update equivalent to applying u1 and then u2. -/
def mergeUpdate (u1 u2 : ShapeUpdate) : ShapeUpdate where
  id := mergeOpt u2.id u1.id
  type := mergeOpt u2.type u1.type
  x := mergeOpt u2.x u1.x
  y := mergeOpt u2.y u1.y
  width := mergeOpt u2.width u1.width
  height := mergeOpt u2.height u1.height
  radius := mergeOpt u2.radius u1.radius
  endX := mergeOpt u2.endX u1.endX
  endY := mergeOpt u2.endY u1.endY
  color := mergeOpt u2.color u1.color
  size := mergeOpt u2.size u1.size
  fillColor := mergeOpt u2.fillColor u1.fillColor
  username := mergeOpt u2.username u1.username
  text := mergeOpt u2.text u1.text
  fontSize := mergeOpt u2.fontSize u1.fontSize

/-- A shape missing the variant-specific fields its geometry tests
require: width or height for rectangle, triangle and image, radius
for circle, an endpoint coordinate for line, and for text the
content together with one of the explicit box dimensions. -/
def missingVariantFields (s : Shape) : Prop :=
  match s.type with
  | .rectangle => s.width = none ∨ s.height = none
  | .triangle => s.width = none ∨ s.height = none
  | .image => s.width = none ∨ s.height = none
  | .circle => s.radius = none
  | .line => s.endX = none ∨ s.endY = none
  | .text => s.text = none ∧ (s.width = none ∨ s.height = none)

/-- A circle of radius 3 centered at (50, 1) (the shape of the C2
scenario that the spec says the eraser pass must delete). -/
def circleNear : Shape :=
  { id := "c1", type := .circle, x := 50, y := 1, radius := some 3,
    color := "#000000", size := 3, username := "bob" }

/-- A circle of radius 3 centered at (50, 20) (the shape of the C2
scenario that must not be deleted). -/
def circleFar : Shape :=
  { id := "c2", type := .circle, x := 50, y := 20, radius := some 3,
    color := "#000000", size := 3, username := "bob" }

/-- A circle of radius 3 centered at (40, 1): it sits on a sample
point of the (0,0) to (100,0) eraser pass and is deleted. -/
def circleOnSample : Shape :=
  { id := "c3", type := .circle, x := 40, y := 1, radius := some 3,
    color := "#000000", size := 3, username := "bob" }

/-- A committed 50 by 40 rectangle at the origin, used by the resize
scenarios. -/
def sampleRect : Shape :=
  { id := "r1", type := .rectangle, x := 0, y := 0, width := some 50,
    height := some 40, color := "#000000", size := 3, username := "bob" }

/-- A rectangle committed by dragging up and left, carrying the
signed cursor delta: width and height are negative, the drawn region
is the box from (5, 5) to (10, 10). -/
def negativeRect : Shape :=
  { id := "n1", type := .rectangle, x := 10, y := 10, width := some (-5),
    height := some (-5), color := "#000000", size := 3, username := "bob" }

/-- An inbound message run for the presence analysis: a cursor
update from alice followed by one message of every other scene
type.  None of them removes the alice entry. -/
def presenceRun : List WSMessage :=
  [{ type := "cursor", username := some "alice", x := some 3, y := some 4 },
   { type := "draw", username := some "bob",
     points := some [{ x := 0, y := 0, color := "#000000", size := 3 }] },
   { type := "addShape",
     shape := some { id := "s1", type := .rectangle, x := 0, y := 0,
                     width := some 50, height := some 30, color := "#000000",
                     size := 3, username := "bob" } },
   { type := "updateShape", shapeId := some "s1", updates := some { x := some 1 } },
   { type := "deleteShape", shapeId := some "s1" },
   { type := "clear" },
   { type := "cursor", username := some "bob", x := some 9, y := some 9 }]

/-- A text shape being edited, for the text-commit scenario. -/
def editedTextShape : Shape :=
  { id := "t1", type := .text, x := 5, y := 5, color := "#000000", size := 3,
    username := "alice", text := some "hi", fontSize := some 16 }

/-- The editing state right before the final keystroke of the
text-commit scenario: buffer hi, about to receive a space. -/
def editStateHi : EditState :=
  { shapes := [editedTextShape], editingTextId := some "t1",
    editingText := "hi", sent := [] }

/-- The cursor entry stored for alice by the presence run. -/
def aliceCursor : UserCursor :=
  { x := 3, y := 4, username := "alice", isDrawing := false }

/-- A client state already holding the alice cursor entry. -/
def presenceState : ClientState :=
  { userCursors := [("alice", aliceCursor)] }

/-- A zero-length line: both endpoints at (2, 3). -/
def zeroLenLine : Shape :=
  { id := "z1", type := .line, x := 2, y := 3, endX := some 2, endY := some 3,
    color := "#000000", size := 3, username := "bob" }

/-- A zero-area triangle: width 0 (height 20). -/
def zeroAreaTri : Shape :=
  { id := "z2", type := .triangle, x := 4, y := 4, width := some 0,
    height := some 20, color := "#000000", size := 3, username := "bob" }

theorem mergeOpt_assoc {α : Type} (a b c : Option α) :
    mergeOpt a (mergeOpt b c) = mergeOpt (mergeOpt a b) c := by
  cases a <;> rfl

theorem getD_mergeOpt {α : Type} (a b : Option α) (d : α) :
    (mergeOpt a b).getD d = a.getD (b.getD d) := by
  cases a <;> rfl

theorem mergeOpt_self {α : Type} (a b : Option α) :
    mergeOpt a (mergeOpt a b) = mergeOpt a b := by
  cases a <;> rfl

theorem getD_getD {α : Type} (a : Option α) (d : α) :
    a.getD (a.getD d) = a.getD d := by
  cases a <;> rfl

theorem mergeShape_mergeShape (s : Shape) (u1 u2 : ShapeUpdate) :
    mergeShape (mergeShape s u1) u2 = mergeShape s (mergeUpdate u1 u2) := by
  simp [mergeShape, mergeUpdate, mergeOpt_assoc, getD_mergeOpt]

theorem mergeShape_idem (s : Shape) (u : ShapeUpdate) :
    mergeShape (mergeShape s u) u = mergeShape s u := by
  simp [mergeShape, mergeOpt_self, getD_getD]

theorem mergeShape_id_eq (s : Shape) (u : ShapeUpdate) (i : String)
    (hs : s.id = i) (hu : u.id = none ∨ u.id = some i) :
    (mergeShape s u).id = i := by
  rcases hu with hu | hu <;> simp [mergeShape, hu, hs]

theorem updateShapes_twice (shapes : List Shape) (shapeId : String) (u : ShapeUpdate) :
    updateShapes (updateShapes shapes shapeId u) shapeId u =
      updateShapes shapes shapeId u := by
  unfold updateShapes
  rw [List.map_map]
  apply List.map_congr_left
  intro s _
  by_cases hs : s.id = shapeId
  · simp only [Function.comp_apply, hs, if_true]
    rcases hu : u.id with _ | j
    · have : (mergeShape s u).id = shapeId := mergeShape_id_eq s u shapeId hs (Or.inl hu)
      simp [this, mergeShape_idem]
    · by_cases hj : j = shapeId
      · have : (mergeShape s u).id = shapeId := by
          apply mergeShape_id_eq s u shapeId hs
          exact Or.inr (hj ▸ hu)
        simp [this, mergeShape_idem]
      · have : (mergeShape s u).id = j := by simp [mergeShape, hu]
        simp [this, hj]
  · simp [Function.comp_apply, hs]

theorem updateShapes_absent (shapes : List Shape) (shapeId : String) (u : ShapeUpdate)
    (h : ∀ s ∈ shapes, s.id ≠ shapeId) :
    updateShapes shapes shapeId u = shapes := by
  unfold updateShapes
  conv_rhs => rw [show shapes = shapes.map id from (List.map_id shapes).symm]
  apply List.map_congr_left
  intro s hs
  simp [h s hs]

theorem deleteShapes_absent (shapes : List Shape) (shapeId : String)
    (h : ∀ s ∈ shapes, s.id ≠ shapeId) :
    deleteShapes shapes shapeId = shapes := by
  unfold deleteShapes
  apply List.filter_eq_self.mpr
  intro s hs
  simpa using h s hs

/-- C4: applying the same updateShape message twice yields the same
shapes list as applying it once; updateShape with an id absent from
the list leaves it unchanged; deleteShape with an absent id leaves
the list unchanged.  Both operations are total functions, so neither
can throw for an unknown id. -/
theorem C4_idempotent_scene_ops :
    (∀ (shapes : List Shape) (shapeId : String) (u : ShapeUpdate),
        updateShapes (updateShapes shapes shapeId u) shapeId u =
          updateShapes shapes shapeId u) ∧
    (∀ (shapes : List Shape) (shapeId : String) (u : ShapeUpdate),
        (∀ s ∈ shapes, s.id ≠ shapeId) → updateShapes shapes shapeId u = shapes) ∧
    (∀ (shapes : List Shape) (shapeId : String),
        (∀ s ∈ shapes, s.id ≠ shapeId) → deleteShapes shapes shapeId = shapes) :=
  ⟨updateShapes_twice, updateShapes_absent, deleteShapes_absent⟩

/-- C4 witness: the double update coincides with the single one on a
concrete scene, and deleting or updating the absent id zzz leaves
the concrete scene untouched. -/
theorem C4_idempotent_scene_ops_witness :
    updateShapes (updateShapes [sampleRect] "r1" { x := some 7 }) "r1" { x := some 7 } =
      updateShapes [sampleRect] "r1" { x := some 7 } ∧
    updateShapes [sampleRect] "zzz" { x := some 7 } = [sampleRect] ∧
    deleteShapes [sampleRect] "zzz" = [sampleRect] :=
  ⟨C4_idempotent_scene_ops.1 [sampleRect] "r1" { x := some 7 },
   C4_idempotent_scene_ops.2.1 [sampleRect] "zzz" { x := some 7 } (by decide),
   C4_idempotent_scene_ops.2.2 [sampleRect] "zzz" (by decide)⟩

/-- C3 counterexample: update B (x := 2, generated later) arrives
first and update A (x := 1, generated earlier) arrives second; the
final x is 1, the value of A, not of B as the claim states. -/
theorem C3_counterexample :
    (updateShapes (updateShapes [sampleRect] "r1" { x := some 2 }) "r1"
        { x := some 1 }).map (fun s => s.x) = [1] ∧ (1 : ℚ) ≠ 2 := by
  constructor
  · decide
  · decide

/-- C3 as amended: applying two updateShape messages for the same id
in sequence is applying their field-wise composition in which the
LAST-APPLIED message wins (provided the first update does not move
the shape to a different id, which no message of this app does); in
particular any field carried by the last-applied update takes that
value of the update, irrespective of generation order. -/
theorem C3_last_applied_wins (shapes : List Shape) (shapeId : String)
    (u1 u2 : ShapeUpdate) (v : ℚ)
    (h1 : u1.id = none ∨ u1.id = some shapeId)
    (hx : u2.x = some v) :
    updateShapes (updateShapes shapes shapeId u1) shapeId u2 =
      updateShapes shapes shapeId (mergeUpdate u1 u2) ∧
    (∀ s : Shape, (mergeShape (mergeShape s u1) u2).x = v) := by
  constructor
  · unfold updateShapes
    rw [List.map_map]
    apply List.map_congr_left
    intro s _
    by_cases hs : s.id = shapeId
    · have hid : (mergeShape s u1).id = shapeId := mergeShape_id_eq s u1 shapeId hs h1
      simp [hs, hid, mergeShape_mergeShape]
    · simp [Function.comp_apply, hs]
  · intro s
    simp [mergeShape, hx]

/-- C3 witness: the composition law and the last-writer field value
at a concrete pair of updates. -/
theorem C3_last_applied_wins_witness :
    updateShapes (updateShapes [sampleRect] "r1" { x := some 2 }) "r1" { x := some 1 } =
      updateShapes [sampleRect] "r1"
        (mergeUpdate { x := some 2 } { x := some 1 }) ∧
    (∀ s : Shape, (mergeShape (mergeShape s { x := some 2 }) { x := some 1 }).x = 1) :=
  C3_last_applied_wins [sampleRect] "r1" { x := some 2 } { x := some 1 } 1
    (Or.inl rfl) rfl

/-- C1 counterexample: an inbound addShape message whose originating
username equals the local username alice is NOT discarded: it is
applied and appends the shape, so the scene changes.  The username
guard of the handler only covers draw and cursor. -/
theorem C1_counterexample :
    (handleWebSocketMessage "alice" {}
        { type := "addShape", username := some "alice",
          shape := some sampleRect }).shapes = [sampleRect] ∧
    ({} : ClientState).shapes = [] := by
  constructor <;> decide

/-- C1 as amended: the echo discard by username equality holds for
the draw and cursor message types only: for these, an inbound
message whose originating username equals the local username leaves
the client state unchanged.  The addShape, updateShape, deleteShape
and clear handlers have no username check and apply the message
regardless of its origin. -/
theorem C1_echo_discarded (username : String) (st : ClientState) (message : WSMessage)
    (htype : message.type = "draw" ∨ message.type = "cursor")
    (hecho : message.username = some username) :
    handleWebSocketMessage username st message = st := by
  rcases htype with h | h
  · rcases hp : message.points with _ | pts <;>
      simp [handleWebSocketMessage, h, hecho, hp]
  · rcases hx : message.x with _ | mx <;> rcases hy : message.y with _ | my <;>
      simp [handleWebSocketMessage, h, hecho, hx, hy]

/-- C1 witness: a draw echo from alice leaves the empty client state
unchanged. -/
theorem C1_echo_discarded_witness :
    (({ type := "draw", username := some "alice",
        points := some [{ x := 0, y := 0, color := "#000000", size := 3 }] } :
          WSMessage).type = "draw" ∨
      ({ type := "draw", username := some "alice",
         points := some [{ x := 0, y := 0, color := "#000000", size := 3 }] } :
           WSMessage).type = "cursor") ∧
    handleWebSocketMessage "alice" {}
      { type := "draw", username := some "alice",
        points := some [{ x := 0, y := 0, color := "#000000", size := 3 }] } = {} :=
  ⟨Or.inl rfl,
   C1_echo_discarded "alice" {}
     { type := "draw", username := some "alice",
       points := some [{ x := 0, y := 0, color := "#000000", size := 3 }] }
     (Or.inl rfl) rfl⟩

theorem lookup_mapSet (m : List (String × UserCursor)) (k u : String) (v : UserCursor) :
    (mapSet m k v).lookup u = if u = k then some v else m.lookup u := by
  induction m with
  | nil =>
    by_cases h : u = k
    · have hb : (u == k) = true := by simp [h]
      simp [mapSet, List.lookup, hb, h]
    · have hb : (u == k) = false := by simp [h]
      simp [mapSet, List.lookup, hb, h]
  | cons hd tl ih =>
    obtain ⟨k1, v1⟩ := hd
    by_cases hk : k1 = k
    · subst hk
      by_cases hu : u = k1
      · have hb : (u == k1) = true := by simp [hu]
        simp [mapSet, List.lookup, hb, hu]
      · have hb : (u == k1) = false := by simp [hu]
        simp [mapSet, List.lookup, hb, hu]
    · by_cases hu : u = k1
      · subst hu
        have hne : ¬ u = k := fun h => hk (h ▸ rfl)
        have hb : (u == u) = true := by simp
        simp [mapSet, List.lookup, hk, hb, hne]
      · have hb : (u == k1) = false := by simp [hu]
        simp [mapSet, List.lookup, hk, hb, ih]

theorem userCursors_after_message (username : String) (st : ClientState)
    (message : WSMessage) :
    (handleWebSocketMessage username st message).userCursors = st.userCursors ∨
    ∃ k v, (handleWebSocketMessage username st message).userCursors =
      mapSet st.userCursors k v := by
  unfold handleWebSocketMessage
  repeat' split
  all_goals first
    | exact Or.inl rfl
    | exact Or.inr ⟨_, _, rfl⟩
    | (left; dsimp only; split <;> rfl)

/-- C8 counterexample: the code stores a cursor entry holding only
position, username and drawing flag (there is no timestamp field),
and no inbound processing ever removes it: after the cursor update
from alice followed by one message of every other scene type, the
alice entry is still present and unchanged, so no sweep evicts
stale entries as the claim states. -/
theorem C8_counterexample :
    ((presenceRun.foldl (handleWebSocketMessage "me") {}).userCursors.lookup "alice") =
      some { x := 3, y := 4, username := "alice", isDrawing := false } := by
  decide

/-- C8 as amended: an inbound cursor message from a different user
stores an entry keyed by username holding position and drawing flag
only; no message processing ever evicts an entry: whatever message
arrives next, a stored cursor entry is still present afterwards
(the map is only reset as a whole when the local user leaves the
room). -/
theorem C8_no_eviction (username : String) (st : ClientState) (message : WSMessage)
    (u : String) (c : UserCursor)
    (h : st.userCursors.lookup u = some c) :
    ∃ d : UserCursor,
      (handleWebSocketMessage username st message).userCursors.lookup u = some d := by
  rcases userCursors_after_message username st message with heq | ⟨k, v, heq⟩
  · exact ⟨c, by rw [heq, h]⟩
  · rw [heq, lookup_mapSet]
    by_cases hk : u = k
    · exact ⟨v, by rw [if_pos hk]⟩
    · exact ⟨c, by rw [if_neg hk, h]⟩

/-- C8 witness: the alice entry survives a clear message. -/
theorem C8_no_eviction_witness :
    presenceState.userCursors.lookup "alice" = some aliceCursor ∧
    ∃ d : UserCursor,
      (handleWebSocketMessage "me" presenceState
        { type := "clear" }).userCursors.lookup "alice" = some d :=
  ⟨rfl, C8_no_eviction "me" presenceState { type := "clear" } "alice" aliceCursor rfl⟩

theorem eraserPath_misses_circleNear :
    eraserPathTouchesShape (fun _ => 0) 0 0 100 0 5 circleNear = false := by
  norm_num [eraserPathTouchesShape, isShapeTouchedByEraser, sqrtLe, List.range_succ,
    circleNear]

theorem eraserPath_misses_circleFar :
    eraserPathTouchesShape (fun _ => 0) 0 0 100 0 5 circleFar = false := by
  norm_num [eraserPathTouchesShape, isShapeTouchedByEraser, sqrtLe, List.range_succ,
    circleFar]

theorem eraserPath_hits_circleOnSample :
    eraserPathTouchesShape (fun _ => 0) 0 0 100 0 5 circleOnSample = true := by
  norm_num [eraserPathTouchesShape, isShapeTouchedByEraser, sqrtLe, List.range_succ,
    circleOnSample]

/-- C2 counterexample: an eraser of radius 5 moved in one step from
(0,0) to (100,0) does NOT delete the circle of radius 3 centered at
(50,1): the six sample points x = 0, 20, 40, 60, 80, 100 all lie at
squared distance at least 101 > 64 = (3+5) squared from its center,
so the sampled check misses the circle even though the continuous
segment passes within distance 1 of it. -/
theorem C2_counterexample :
    eraseStep (fun _ => 0) 0 0 100 0 5 [circleNear] = [circleNear] := by
  simp [eraseStep, eraserPath_misses_circleNear]

/-- C2 as amended: the eraser pass from (0,0) to (100,0) with radius
5 deletes neither the circle of radius 3 at (50,1) nor the one at
(50,20), because no SAMPLE point comes within 8 of either center;
a circle of radius 3 centered at (40,1), which lies next to the
sample point (40,0), is deleted. -/
theorem C2_eraser_sampling :
    eraseStep (fun _ => 0) 0 0 100 0 5 [circleNear, circleFar, circleOnSample] =
      [circleNear, circleFar] := by
  simp only [eraseStep, eraserPath_misses_circleNear, eraserPath_misses_circleFar,
    eraserPath_hits_circleOnSample, List.filter_cons, List.filter_nil,
    List.map_cons, List.map_nil, if_true, if_false, Bool.false_eq_true, ite_false,
    ite_true]
  decide

/-- C7 counterexample: dragging the left handle of the 50 by 40
rectangle at the origin to cursor x = 48 would give width 2, below
the 5 px floor, but the code leaves the shape entirely unchanged:
the width stays 50 instead of being clamped to exactly 5. -/
theorem C7_counterexample :
    resizeShape (fun q => q) sampleRect "l" 48 20 = sampleRect ∧
    sampleRect.width = some 50 ∧ (50 : ℚ) ≠ 5 := by
  refine ⟨?_, rfl, by norm_num⟩
  simp [resizeShape, strContains, sampleRect]
  norm_num

/-- C7 as amended: the right and bottom handles clamp the dimension
to exactly 5 when the cursor would take it below 5; the top and left
handles do NOT clamp: they leave the shape unchanged whenever the
new dimension would be 5 or less; a circle resize sets the radius to
the floored distance max 5 (sqrt of the squared cursor offset),
hence at least 5, for every handle; a triangle resize floors both
dimensions at 10 for every handle. -/
theorem C7_resize_floors (sqrtFn : ℚ → ℚ) (s : Shape) (handle : String)
    (x y w h r : ℚ) :
    (s.type = .rectangle → s.width = some w → s.height = some h → w ≠ 0 → h ≠ 0 →
      (x - s.x ≤ 5 → (resizeShape sqrtFn s "r" x y).width = some 5) ∧
      (y - s.y ≤ 5 → (resizeShape sqrtFn s "b" x y).height = some 5) ∧
      (s.y + h - y ≤ 5 → resizeShape sqrtFn s "t" x y = s) ∧
      (s.x + w - x ≤ 5 → resizeShape sqrtFn s "l" x y = s)) ∧
    (s.type = .circle → s.radius = some r → r ≠ 0 →
      (resizeShape sqrtFn s handle x y).radius =
        some (max 5 (sqrtFn ((x - s.x) * (x - s.x) + (y - s.y) * (y - s.y)))) ∧
      (5 : ℚ) ≤ max 5 (sqrtFn ((x - s.x) * (x - s.x) + (y - s.y) * (y - s.y)))) ∧
    (s.type = .triangle → s.width = some w → s.height = some h → w ≠ 0 → h ≠ 0 →
      (resizeShape sqrtFn s handle x y).width =
        some (max 10 (|x - (s.x + w / 2)| * 2)) ∧
      (resizeShape sqrtFn s handle x y).height =
        some (max 10 (|y - (s.y + h / 2)| * 2)) ∧
      (10 : ℚ) ≤ max 10 (|x - (s.x + w / 2)| * 2)) := by
  refine ⟨?_, ?_, ?_⟩
  · intro ht hw hh hw0 hh0
    refine ⟨?_, ?_, ?_, ?_⟩
    · intro hx
      simp [resizeShape, strContains, ht, hw, hh, hw0, hh0, max_eq_left hx]
    · intro hy
      simp [resizeShape, strContains, ht, hw, hh, hw0, hh0, max_eq_left hy]
    · intro hy
      have : ¬ (s.y + h - y > 5) := by linarith
      simp [resizeShape, strContains, ht, hw, hh, hw0, hh0, this]
    · intro hx
      have : ¬ (s.x + w - x > 5) := by linarith
      simp [resizeShape, strContains, ht, hw, hh, hw0, hh0, this]
  · intro ht hr hr0
    constructor
    · simp [resizeShape, ht, hr, hr0]
    · exact le_max_left 5 _
  · intro ht hw hh hw0 hh0
    refine ⟨?_, ?_, le_max_left 10 _⟩ <;>
      simp [resizeShape, ht, hw, hh, hw0, hh0]

/-- C7 witness: the floors at concrete inputs: the right handle of
the sample rectangle dragged to x = 2 clamps the width to exactly 5;
a circle resize at a cursor 3 px away floors the radius at 5; a
triangle resize close to its center floors both dimensions at 10. -/
theorem C7_resize_floors_witness :
    ((2 : ℚ) - sampleRect.x ≤ 5 →
      (resizeShape (fun q => q) sampleRect "r" 2 20).width = some 5) ∧
    ((resizeShape (fun q => q)
        { id := "k1", type := .circle, x := 0, y := 0, radius := some 40,
          color := "#000000", size := 3, username := "bob" } "r" 0 3).radius =
      some (max 5 ((fun q => q) (((0 : ℚ) - 0) * (0 - 0) + (3 - 0) * (3 - 0)))) ∧
      (5 : ℚ) ≤ max 5 ((fun q => q) (((0 : ℚ) - 0) * (0 - 0) + (3 - 0) * (3 - 0)))) ∧
    ((resizeShape (fun q => q)
        { id := "g1", type := .triangle, x := 0, y := 0, width := some 30,
          height := some 20, color := "#000000", size := 3, username := "bob" }
        "br" 16 11).width = some (max 10 (|(16 : ℚ) - (0 + 30 / 2)| * 2))) :=
  ⟨((C7_resize_floors (fun q => q) sampleRect "r" 2 20 50 40 0).1 rfl rfl rfl
      (by norm_num) (by norm_num)).1,
   (C7_resize_floors (fun q => q)
      { id := "k1", type := .circle, x := 0, y := 0, radius := some 40,
        color := "#000000", size := 3, username := "bob" } "r" 0 3 0 0 40).2.1
      rfl rfl (by norm_num),
   ((C7_resize_floors (fun q => q)
      { id := "g1", type := .triangle, x := 0, y := 0, width := some 30,
        height := some 20, color := "#000000", size := 3, username := "bob" }
      "br" 16 11 30 20 0).2.2 rfl rfl rfl (by norm_num) (by norm_num)).1⟩

/-- C5: every geometry test on a shape missing its required
variant-specific fields answers no match instead of throwing:
isPointInShape is false, getResizeHandle is none and
isShapeTouchedByEraser is false, for every cursor position, eraser
position and radius, and every text measure; all three functions
are total, so none can throw. -/
theorem C5_missing_fields_no_match (measureText : String → ℚ) (x y ex ey er : ℚ)
    (s : Shape) (h : missingVariantFields s) :
    isPointInShape measureText x y s = false ∧
    getResizeHandle s x y = none ∧
    isShapeTouchedByEraser measureText ex ey er s = false := by
  cases hty : s.type <;> simp only [missingVariantFields, hty] at h
  case rectangle =>
    rcases h with h | h
    · exact ⟨by simp [isPointInShape, hty, h],
        by simp [getResizeHandle, hty, h],
        by simp [isShapeTouchedByEraser, hty, h]⟩
    · rcases hw : s.width with _ | wv <;>
        exact ⟨by simp [isPointInShape, hty, h, hw],
          by simp [getResizeHandle, hty, h, hw],
          by simp [isShapeTouchedByEraser, hty, h, hw]⟩
  case triangle =>
    rcases h with h | h
    · exact ⟨by simp [isPointInShape, hty, h],
        by simp [getResizeHandle, hty, h],
        by simp [isShapeTouchedByEraser, hty, h]⟩
    · rcases hw : s.width with _ | wv <;>
        exact ⟨by simp [isPointInShape, hty, h, hw],
          by simp [getResizeHandle, hty, h, hw],
          by simp [isShapeTouchedByEraser, hty, h, hw]⟩
  case image =>
    rcases h with h | h
    · exact ⟨by simp [isPointInShape, hty, h],
        by simp [getResizeHandle, hty, h],
        by simp [isShapeTouchedByEraser, hty, h]⟩
    · rcases hw : s.width with _ | wv <;>
        exact ⟨by simp [isPointInShape, hty, h, hw],
          by simp [getResizeHandle, hty, h, hw],
          by simp [isShapeTouchedByEraser, hty, h, hw]⟩
  case circle =>
    exact ⟨by simp [isPointInShape, hty, h],
      by simp [getResizeHandle, hty, h],
      by simp [isShapeTouchedByEraser, hty, h]⟩
  case line =>
    rcases h with h | h
    · exact ⟨by simp [isPointInShape, hty, h],
        by simp [getResizeHandle, hty, h],
        by simp [isShapeTouchedByEraser, hty, h]⟩
    · rcases hex : s.endX with _ | exv <;>
        exact ⟨by simp [isPointInShape, hty, h, hex],
          by simp [getResizeHandle, hty, h, hex],
          by simp [isShapeTouchedByEraser, hty, h, hex]⟩
  case text =>
    obtain ⟨htext, h⟩ := h
    rcases h with h | h
    · exact ⟨by simp [isPointInShape, hty, h, htext],
        by simp [getResizeHandle, hty, h],
        by simp [isShapeTouchedByEraser, hty, htext]⟩
    · rcases hw : s.width with _ | wv <;>
        exact ⟨by simp [isPointInShape, hty, h, hw, htext],
          by simp [getResizeHandle, hty, h, hw],
          by simp [isShapeTouchedByEraser, hty, htext]⟩

/-- C5 witness: a rectangle with no width and no height matches
nothing under all three tests. -/
theorem C5_missing_fields_no_match_witness :
    missingVariantFields
      { id := "m1", type := ShapeType.rectangle, x := 1, y := 2,
        color := "#000000", size := 3, username := "bob" } ∧
    (isPointInShape (fun _ => 0) 1 2
        { id := "m1", type := ShapeType.rectangle, x := 1, y := 2,
          color := "#000000", size := 3, username := "bob" } = false ∧
      getResizeHandle
        { id := "m1", type := ShapeType.rectangle, x := 1, y := 2,
          color := "#000000", size := 3, username := "bob" } 1 2 = none ∧
      isShapeTouchedByEraser (fun _ => 0) 1 2 10
        { id := "m1", type := ShapeType.rectangle, x := 1, y := 2,
          color := "#000000", size := 3, username := "bob" } = false) :=
  ⟨Or.inl rfl,
   C5_missing_fields_no_match (fun _ => 0) 1 2 1 2 10
     { id := "m1", type := ShapeType.rectangle, x := 1, y := 2,
       color := "#000000", size := 3, username := "bob" } (Or.inl rfl)⟩

/-- C6: degenerate geometry yields definite results through guarded
paths.  (1) distanceToLine on a zero-length segment takes the
guarded lenSq = 0 path and returns the (finite) distance to the
coincident endpoint.  (2) the eraser test on a zero-length line
takes its guarded branch and reduces to the point-distance
comparison, a definite boolean.  (3) a zero-area triangle (zero
width or height) is rejected by the truthiness guard before the
barycentric division, so containment and eraser tests return the
definite boolean false.  (4) the barycentric division is guarded:
whenever the triangle branch runs (width and height nonzero), the
signed area is -(width * height) / 2, which is nonzero, so no
division by zero occurs. -/
theorem C6_degenerate_geometry :
    (∀ px py x1 y1 : ℚ, distanceToLineSq px py x1 y1 x1 y1 =
        (px - x1) * (px - x1) + (py - y1) * (py - y1)) ∧
    (∀ (m : String → ℚ) (ex ey er : ℚ) (s : Shape), s.type = .line →
        s.endX = some s.x → s.endY = some s.y →
        isShapeTouchedByEraser m ex ey er s =
          sqrtLe ((ex - s.x) * (ex - s.x) + (ey - s.y) * (ey - s.y)) er) ∧
    (∀ (m : String → ℚ) (x y ex ey er : ℚ) (s : Shape), s.type = .triangle →
        (s.width = some 0 ∨ s.height = some 0) →
        isPointInShape m x y s = false ∧
        isShapeTouchedByEraser m ex ey er s = false) ∧
    (∀ x0 y0 w h : ℚ, w ≠ 0 → h ≠ 0 →
        triArea (x0 + w / 2) y0 x0 (y0 + h) (x0 + w) (y0 + h) ≠ 0) := by
  refine ⟨?_, ?_, ?_, ?_⟩
  · intro px py x1 y1
    simp [distanceToLineSq]
  · intro m ex ey er s hty hex hey
    simp [isShapeTouchedByEraser, hty, hex, hey, sub_self]
  · intro m x y ex ey er s hty h
    rcases h with h | h
    · rcases hh : s.height with _ | hv <;>
        exact ⟨by simp [isPointInShape, hty, h, hh],
          by simp [isShapeTouchedByEraser, hty, h, hh]⟩
    · rcases hw : s.width with _ | wv <;>
        exact ⟨by simp [isPointInShape, hty, h, hw],
          by simp [isShapeTouchedByEraser, hty, h, hw]⟩
  · intro x0 y0 w h hw hh
    have harea : triArea (x0 + w / 2) y0 x0 (y0 + h) (x0 + w) (y0 + h) =
        -(w * h) / 2 := by
      unfold triArea
      ring
    rw [harea]
    exact div_ne_zero (neg_ne_zero.mpr (mul_ne_zero hw hh)) two_ne_zero

/-- C6 witness: the zero-length line at (2,3) under the eraser test
reduces to the point-distance comparison, the zero-area triangle is
contained nowhere and never erased, and a 30 by 20 triangle has
nonzero area. -/
theorem C6_degenerate_geometry_witness :
    (isShapeTouchedByEraser (fun _ => 0) 0 0 1 zeroLenLine =
      sqrtLe (((0 : ℚ) - zeroLenLine.x) * (0 - zeroLenLine.x) +
        ((0 : ℚ) - zeroLenLine.y) * (0 - zeroLenLine.y)) 1) ∧
    (isPointInShape (fun _ => 0) 4 5 zeroAreaTri = false ∧
      isShapeTouchedByEraser (fun _ => 0) 4 5 10 zeroAreaTri = false) ∧
    triArea ((0 : ℚ) + 30 / 2) 0 0 (0 + 20) (0 + 30) (0 + 20) ≠ 0 :=
  ⟨C6_degenerate_geometry.2.1 (fun _ => 0) 0 0 1 zeroLenLine rfl rfl rfl,
   C6_degenerate_geometry.2.2.1 (fun _ => 0) 4 5 4 5 10 zeroAreaTri rfl (Or.inl rfl),
   C6_degenerate_geometry.2.2.2 0 0 30 20 (by norm_num) (by norm_num)⟩

/-- C9: a rectangle with a negative stored width or height (as
committed by stopDrawing, which stores the signed cursor delta:
dragging from (5,5) to (1,1) stores width -4, height -4) is
invisible to selection: isPointInShape is false at every point; yet
the eraser test, which normalizes the bounds with min and max, can
still touch it: the eraser disc of radius 2 at (7,7) touches the
rectangle stored at (10,10) with width and height -5.  Such a
rectangle can be erased but never selected. -/
theorem C9_negative_rect (measureText : String → ℚ) (x y : ℚ) (s : Shape)
    (ht : s.type = .rectangle)
    (hneg : (∃ w, s.width = some w ∧ w < 0) ∨ (∃ h, s.height = some h ∧ h < 0)) :
    isPointInShape measureText x y s = false ∧
    (finalizeShape (fun q => q) "id1" .rectangle 5 5 1 1 "#000000" 3 "alice").width =
      some (-4) ∧
    (finalizeShape (fun q => q) "id1" .rectangle 5 5 1 1 "#000000" 3 "alice").height =
      some (-4) ∧
    isShapeTouchedByEraser measureText 7 7 2 negativeRect = true := by
  refine ⟨?_, by norm_num [finalizeShape], by norm_num [finalizeShape], ?_⟩
  · rcases hneg with ⟨w, hw, hwneg⟩ | ⟨h, hh, hhneg⟩
    · rcases hh : s.height with _ | hv
      · simp [isPointInShape, ht, hw, hh]
      · by_cases hv0 : hv = 0
        · simp [isPointInShape, ht, hw, hh, hv0]
        · simp only [isPointInShape, ht, hw, hh]
          rw [if_pos ⟨by linarith, hv0⟩]
          simp only [decide_eq_false_iff_not]
          rintro ⟨h1, h2, -⟩
          linarith
    · rcases hwv : s.width with _ | wv
      · simp [isPointInShape, ht, hwv, hh]
      · by_cases hw0 : wv = 0
        · simp [isPointInShape, ht, hwv, hh, hw0]
        · simp only [isPointInShape, ht, hwv, hh]
          rw [if_pos ⟨hw0, by linarith⟩]
          simp only [decide_eq_false_iff_not]
          rintro ⟨-, -, h3, h4⟩
          linarith
  · norm_num [isShapeTouchedByEraser, negativeRect]

/-- C9 witness: the negative rectangle itself is selectable nowhere,
here tested at (7,7), while the eraser at the same point touches
it. -/
theorem C9_negative_rect_witness :
    negativeRect.type = ShapeType.rectangle ∧
    (isPointInShape (fun _ => 0) 7 7 negativeRect = false ∧
      (finalizeShape (fun q => q) "id1" .rectangle 5 5 1 1 "#000000" 3 "alice").width =
        some (-4) ∧
      (finalizeShape (fun q => q) "id1" .rectangle 5 5 1 1 "#000000" 3 "alice").height =
        some (-4) ∧
      isShapeTouchedByEraser (fun _ => 0) 7 7 2 negativeRect = true) :=
  ⟨rfl,
   C9_negative_rect (fun _ => 0) 7 7 negativeRect rfl
     (Or.inl ⟨-5, rfl, by norm_num⟩)⟩

theorem find?_id_map (l : List Shape) (i : String) (f : Shape → Shape)
    (hf : ∀ sh, (f sh).id = sh.id) :
    (l.map f).find? (fun sh => sh.id = i) =
      Option.map f (l.find? (fun sh => sh.id = i)) := by
  have hp : ((fun sh : Shape => decide (sh.id = i)) ∘ f) =
      (fun sh : Shape => decide (sh.id = i)) := by
    funext sh
    simp [Function.comp, hf]
  rw [List.find?_map, hp]

/-- C10: from a state editing the text shape tid with buffer b, the
final keystroke c broadcasts the untrimmed buffer b.push c through
updateTextShape, and the subsequent Enter commits the TRIMMED
buffer to the local shape while broadcasting nothing; so whenever
the buffer has surrounding whitespace and a nonempty trim, the
final local text (the trimmed buffer) differs from the text last
sent to remote clients (the untrimmed buffer). -/
theorem C10_text_commit (st : EditState) (tid : String) (s : Shape) (c : Char)
    (hid : st.editingTextId = some tid)
    (hfind : st.shapes.find? (fun sh => sh.id = tid) = some s)
    (hne : jsTrim (st.editingText.push c) ≠ "")
    (hdiff : jsTrim (st.editingText.push c) ≠ st.editingText.push c) :
    (handleEditKey st (.char c)).sent =
      st.sent ++ [textUpdateMsg tid (st.editingText.push c)] ∧
    (handleEditKey (handleEditKey st (.char c)) .enter).sent =
      (handleEditKey st (.char c)).sent ∧
    (handleEditKey (handleEditKey st (.char c)) .enter).shapes.find?
        (fun sh => sh.id = tid) =
      some { s with text := some (jsTrim (st.editingText.push c)) } ∧
    jsTrim (st.editingText.push c) ≠ st.editingText.push c := by
  have hsid : s.id = tid := by
    have := List.find?_some hfind
    simpa using this
  have h1 : (handleEditKey st (.char c)).sent =
      st.sent ++ [textUpdateMsg tid (st.editingText.push c)] := by
    simp [handleEditKey, hid, updateTextShape]
  have h2 : (handleEditKey st (.char c)).editingTextId = some tid := by
    simp [handleEditKey, hid, updateTextShape]
  have h3 : (handleEditKey st (.char c)).editingText = st.editingText.push c := by
    simp [handleEditKey, hid, updateTextShape]
  have h4 : (handleEditKey st (.char c)).shapes =
      st.shapes.map (fun sh =>
        if sh.id = tid then { sh with text := some (st.editingText.push c) } else sh) := by
    simp [handleEditKey, hid, updateTextShape]
  have hf1 : ∀ sh : Shape,
      ((fun sh => if sh.id = tid then
          { sh with text := some (st.editingText.push c) } else sh) sh).id = sh.id := by
    intro sh
    by_cases h : sh.id = tid <;> simp [h]
  have hfind1 : (handleEditKey st (.char c)).shapes.find? (fun sh => sh.id = tid) =
      some { s with text := some (st.editingText.push c) } := by
    rw [h4, find?_id_map _ _ _ hf1, hfind]
    simp [Option.map, hsid]
  generalize hstc : handleEditKey st (.char c) = stc at h1 h2 h3 h4 hfind1 ⊢
  have h5 : (handleEditKey stc .enter).sent = stc.sent := by
    simp [handleEditKey, h2, h3, hne, hfind1]
  have h6 : (handleEditKey stc .enter).shapes =
      stc.shapes.map (fun sh =>
        if sh.id = tid then
          { sh with text := some (jsTrim (st.editingText.push c)) } else sh) := by
    simp [handleEditKey, h2, h3, hne, hfind1]
  have hf2 : ∀ sh : Shape,
      ((fun sh => if sh.id = tid then
          { sh with text := some (jsTrim (st.editingText.push c)) } else sh) sh).id =
        sh.id := by
    intro sh
    by_cases h : sh.id = tid <;> simp [h]
  refine ⟨h1, h5, ?_, hdiff⟩
  rw [h6, find?_id_map _ _ _ hf2, hfind1]
  simp [Option.map, hsid]

/-- C10 witness: typing a space after hi and committing with Enter:
the keystroke broadcasts the untrimmed buffer and Enter stores the
trimmed hi locally, sending nothing. -/
theorem C10_text_commit_witness :
    editStateHi.editingTextId = some "t1" ∧
    editStateHi.shapes.find? (fun sh => sh.id = "t1") = some editedTextShape ∧
    jsTrim (editStateHi.editingText.push ' ') ≠ "" ∧
    jsTrim (editStateHi.editingText.push ' ') ≠ editStateHi.editingText.push ' ' ∧
    ((handleEditKey editStateHi (.char ' ')).sent =
        editStateHi.sent ++ [textUpdateMsg "t1" (editStateHi.editingText.push ' ')] ∧
      (handleEditKey (handleEditKey editStateHi (.char ' ')) .enter).sent =
        (handleEditKey editStateHi (.char ' ')).sent ∧
      (handleEditKey (handleEditKey editStateHi (.char ' ')) .enter).shapes.find?
          (fun sh => sh.id = "t1") =
        some { editedTextShape with
                text := some (jsTrim (editStateHi.editingText.push ' ')) } ∧
      jsTrim (editStateHi.editingText.push ' ') ≠ editStateHi.editingText.push ' ') :=
  ⟨rfl, by decide, by decide, by decide,
   C10_text_commit editStateHi "t1" editedTextShape ' ' rfl (by decide) (by decide)
     (by decide)⟩

end Whiteboard
